import Mathlib

/-!
Verification of the `tsl` excerpt: the sparse segment kernels of
`tsl/nn/functional.py` (`gated_tanh`, `reverse_tensor`, `sparse_softmax`,
`sparse_multi_head_attention`) and the bidirectional graph recurrent
imputation model of `tsl/nn/models/imputation/grin_model.py` (`GRINModel`),
shallowly embedded in Lean.

Conventions of the embedding:
* Tensor entries are exact reals (`ℝ`); a tensor axis of known extent is a
  `Fin`-indexed function, while axes whose extent is only known dynamically
  (the feature axis fed to `torch.tensor_split` / broadcasting last axes) are
  `List ℝ` values carrying their own length.
* Python exceptions are modelled with `Except`: a call that raises is a
  `.error` value, a call that returns normally an `.ok` value.
* The randomness of `torch.nn.functional.dropout` (which is applied with its
  default `training=True` whenever `dropout_p > 0.0`) is made explicit: the
  Bernoulli sample is an extra argument `dropmask` telling which positions are
  zeroed; kept positions are rescaled by `1 / (1 - p)` exactly as in torch.
* In-place mutation (`v *= ...` in `sparse_multi_head_attention`) is made
  explicit by state passing: the function also returns the post-call contents
  of each of its array arguments.
-/

namespace tsl

/-- Modelled from the spec: the library-wide small constant `ε` added to the
softmax denominator (`tsl.epsilon`; the `tsl` package root module defining it
is not part of the excerpt).  The spec only requires "a small constant ε added
to the denominator to avoid division by zero"; we take the positive constant
`1e-8`. -/
noncomputable def epsilon : ℝ := 1 / 10 ^ 8

/-- The logistic sigmoid `σ(x) = 1 / (1 + exp (-x))`, the meaning of
`torch.sigmoid` on each entry. -/
noncomputable def sigmoid (x : ℝ) : ℝ := 1 / (1 + Real.exp (-x))

/-- Element-wise product of two 1-D tensors under torch broadcasting on that
axis: equal lengths multiply pointwise; a length-1 operand is broadcast
against the other; any other length mismatch raises a `RuntimeError`.
This is the semantics of `*` on the split/last axis used by `gated_tanh`
(line 38) and by the score computation of `sparse_multi_head_attention`
(line 119). -/
noncomputable def broadcast_mul_1d (a b : List ℝ) : Except String (List ℝ) :=
  if a.length = b.length then Except.ok (List.zipWith (fun x y => x * y) a b)
  else if a.length = 1 then Except.ok (b.map (fun y => a.headD 0 * y))
  else if b.length = 1 then Except.ok (a.map (fun x => x * b.headD 0))
  else Except.error "The size of tensor a must match the size of tensor b"

/-- Embedding of `tsl.nn.functional.gated_tanh` on the split axis (the axis named by `dim`),
lines 21-38.  `torch.tensor_split(input, 2, dim)` cuts the axis of length `L`
into a first section of length `⌈L/2⌉ = (L+1)/2` and a second section of
length `⌊L/2⌋`; the result is `tanh(out) * sigmoid(gate)` under torch
broadcasting of the two sections. -/
noncomputable def gated_tanh (input : List ℝ) : Except String (List ℝ) :=
  let out := input.take ((input.length + 1) / 2)
  let gate := input.drop ((input.length + 1) / 2)
  broadcast_mul_1d (out.map Real.tanh) (gate.map sigmoid)

/-- The group of a target slot `g`: the set of source positions that `index`
maps to `g`.  This is the set of positions whose contributions a scatter with
target `g` accumulates. -/
def segment {S N : ℕ} (index : Fin S → Fin N) (g : Fin N) : Finset (Fin S) :=
  Finset.univ.filter (fun i => index i = g)

/-- Semantics of `torch_scatter.scatter(src, index, dim, dim_size=N, reduce='max')` read at
slot `g`: the maximum of the contributions scattered into `g`, and `0` for a
slot that receives no contribution (torch_scatter fills untouched output
entries with zeros). -/
noncomputable def scatter_max {S N : ℕ} (src : Fin S → ℝ) (index : Fin S → Fin N)
    (g : Fin N) : ℝ :=
  if h : (segment index g).Nonempty then (segment index g).sup' h src else 0

/-- Semantics of `torch_scatter.scatter(src, index, dim, dim_size=N, reduce='sum')` read at
slot `g`: the sum of the contributions scattered into `g` (an empty sum for an
untouched slot). -/
noncomputable def scatter_sum {S N : ℕ} (src : Fin S → ℝ) (index : Fin S → Fin N)
    (g : Fin N) : ℝ :=
  ∑ i ∈ segment index g, src i

/-- Embedding of `tsl.nn.functional.sparse_softmax` (lines 53-79) along the normalization
axis.  The source broadcasts `index` to `src`'s shape along `dim` and then
treats every slice along the remaining axes independently; this embedding is
that per-slice computation: `src` is the slice along the normalization axis,
`index` its grouping.  The group count `N` is the ambient `Fin` bound (the
source's `maybe_num_nodes(index, num_nodes)`, i.e. `num_nodes` when given and
`max(index) + 1` otherwise; in both cases every entry of `index` is a
non-negative integer below `N`).

Pipeline exactly as in the source: scatter-max per group, gather back
(`index_select`), exponentiate the difference, scatter-add per group, gather
back, divide by the gathered sum plus `tsl.epsilon`. -/
noncomputable def sparse_softmax {S N : ℕ} (src : Fin S → ℝ)
    (index : Fin S → Fin N) : Fin S → ℝ :=
  let src_max := fun i => scatter_max src index (index i)
  let out := fun i => Real.exp (src i - src_max i)
  let out_sum := fun i => scatter_sum out index (index i)
  fun i => out i / (out_sum i + tsl.epsilon)

/-- Written from the spec's words, for comparison with `sparse_softmax`
(claim C6): the maximum of `src` over the group of element `i`
("`max_g` is the maximum of src over group g"). -/
noncomputable def segmentMaxAt {S N : ℕ} (src : Fin S → ℝ)
    (index : Fin S → Fin N) (i : Fin S) : ℝ :=
  (segment index (index i)).sup'
    ⟨i, by simp [segment]⟩ src

/-- Written from the spec's words, for comparison with `sparse_softmax`
(claim C6): `exp(src_i - max_g) / (sum over j in g of exp(src_j - max_g)
+ epsilon)`, independently for each group `g` and each element `i` of `g`. -/
noncomputable def segmentSoftmaxSpec {S N : ℕ} (src : Fin S → ℝ)
    (index : Fin S → Fin N) (i : Fin S) : ℝ :=
  Real.exp (src i - segmentMaxAt src index i) /
    ((∑ j ∈ segment index (index i), Real.exp (src j - segmentMaxAt src index i))
      + tsl.epsilon)

/-- One `(s, h)` slot of the score computation of
`sparse_multi_head_attention` (lines 116 and 119): `B, H, E = q.shape` binds
`E` to the last extent of `q`, and the score is `(q * k).sum(-1) / sqrt(E)`
with `*` broadcasting the last axes of `q` and `k`.  The last axes are carried
dynamically so that mismatched extents can be expressed. -/
noncomputable def qk_score_slot (q k : List ℝ) : Except String ℝ :=
  Except.map (fun l => l.sum / Real.sqrt (q.length : ℝ)) (broadcast_mul_1d q k)

/-- The array arguments of `sparse_multi_head_attention`:
`q, k : (S, H, E)`, `v : (S, H, O)`, `index : (S)` with values below the
target length `N` (the source's `maybe_num_nodes(index, dim_size)`). -/
structure SMHAState (S H E O N : ℕ) where
  q : Fin S → Fin H → Fin E → ℝ
  k : Fin S → Fin H → Fin E → ℝ
  v : Fin S → Fin H → Fin O → ℝ
  index : Fin S → Fin N

/-- The result of `sparse_multi_head_attention`: the attended output `out`,
the attention weights `alpha`, and — the call mutating its arguments being
part of its observable behaviour — the contents `post` of the four array
arguments after the call returns. -/
structure SMHAResult (S H E O N : ℕ) where
  out : Fin N → Fin H → Fin O → ℝ
  alpha : Fin S → Fin H → ℝ
  post : SMHAState S H E O N

/-- Embedding of `tsl.nn.functional.sparse_multi_head_attention` (lines 82-128).

* scores: `alpha = (q * k).sum(dim=-1) / math.sqrt(E)` per `(s, h)` pair;
* normalisation: `sparse_softmax(alpha, index, N, dim=0)`, i.e. the segment
  softmax applied independently to each head column;
* dropout: when `dropout_p > 0.0` the source calls
  `F.dropout(alpha, p=dropout_p)` with its default `training=True`; its
  Bernoulli sample is the explicit argument `dropmask` (`true` = dropped),
  kept entries being rescaled by `1 / (1 - dropout_p)`;
* `v *= alpha.view(-1, H, 1)` multiplies `v` in place;
* `out` is a fresh zero buffer receiving `scatter_add_` of the (mutated) `v`
  at `index` broadcast over heads and output channels. -/
noncomputable def sparse_multi_head_attention {S H E O N : ℕ}
    (st : SMHAState S H E O N) (dropout_p : ℝ)
    (dropmask : Fin S → Fin H → Bool) : SMHAResult S H E O N :=
  let score : Fin S → Fin H → ℝ :=
    fun i h => (∑ e : Fin E, st.q i h e * st.k i h e) / Real.sqrt (E : ℝ)
  let alpha0 : Fin S → Fin H → ℝ :=
    fun i h => sparse_softmax (fun j => score j h) st.index i
  let alpha : Fin S → Fin H → ℝ :=
    if 0 < dropout_p then
      fun i h => if dropmask i h then 0 else alpha0 i h / (1 - dropout_p)
    else alpha0
  let v' : Fin S → Fin H → Fin O → ℝ := fun i h o => st.v i h o * alpha i h
  let out : Fin N → Fin H → Fin O → ℝ :=
    fun g h o => ∑ i ∈ segment st.index g, v' i h o
  ⟨out, alpha, ⟨st.q, st.k, v', st.index⟩⟩

/-- A tensor shaped `[batch, time, nodes, features]`. -/
def T4 (b t n f : ℕ) : Type := Fin b → Fin t → Fin n → Fin f → ℝ

/-- Embedding of `tsl.nn.functional.reverse_tensor` (lines 41-50) along the time axis
(`dim=1`), the only axis `GRINModel.forward` reverses: position `i` of the
result reads position `size - 1 - i` of the input. -/
def reverse_tensor {b t n f : ℕ} (x : T4 b t n f) : T4 b t n f :=
  fun bi ti => x bi (Fin.rev ti)

/-- The graph structure forwarded (unread) to the recurrent cells: an edge
list with optional scalar edge weights. -/
def EdgeSpec : Type := List (ℕ × ℕ) × Option (List ℝ)

/-- Modelled from the spec: the external Graph Recurrent Imputation Cell
(`GRIL`, imported from `tsl.nn.layers.graph_convs.grin_cell`, not part of the
excerpt), consumed only through the call contract
`cell(x, edge_index, edge_weight=None, mask=None, u=None) ->
(output, prediction, representation, final_state)` with `output`,
`prediction` shaped like `x`, `representation` with `r` features, and
`final_state` cell-internal and discarded by the model (so omitted here).
`g` is the feature extent of the exogenous input `u`. -/
structure GRILCell (b t n f r g : ℕ) where
  run : T4 b t n f → EdgeSpec → Option (T4 b t n f) → Option (T4 b t n g) →
    T4 b t n f × T4 b t n f × T4 b t n r

/-- Python exception classes raised by the `GRINModel` code paths. -/
inductive PyError where
  | assertionError : PyError
  | typeError : PyError
  | valueError : PyError
  | runtimeError : PyError
  deriving DecidableEq, Repr

/-- What a torch call in the merge step hands back: `torch.mean` / `torch.sum`
with a `dim` argument return a single tensor, while `torch.min` / `torch.max`
with a `dim` argument return the named tuple `(values, indices)`. -/
inductive MergeOut (b t n f : ℕ) where
  | tensor (values : T4 b t n f) : MergeOut b t n f
  | withIndices (values : T4 b t n f)
      (indices : Fin b → Fin t → Fin n → Fin f → Fin 2) : MergeOut b t n f

/-- Returns `true` exactly when the merge step produced a single tensor. -/
def MergeOut.isTensor {b t n f : ℕ} : MergeOut b t n f → Bool
  | MergeOut.tensor _ => true
  | MergeOut.withIndices _ _ => false

/-- The value returned by `GRINModel.forward`:
`imputation, (fwd_out, bwd_out, fwd_pred, bwd_pred)` (line 114). -/
structure GRINOutput (b t n f : ℕ) where
  imputation : MergeOut b t n f
  fwd_out : T4 b t n f
  bwd_out : T4 b t n f
  fwd_pred : T4 b t n f
  bwd_pred : T4 b t n f

/-- Returns `true` exactly when a forward call returned normally with a single-tensor
imputation. -/
def imputationIsTensor {b t n f : ℕ} :
    Except PyError (GRINOutput b t n f) → Bool
  | Except.ok o => o.imputation.isTensor
  | Except.error _ => false

/-- Returns `true` exactly when an `Except` value is an error (the Python call
raised). -/
def exceptIsError {ε α : Type} : Except ε α → Bool
  | Except.error _ => true
  | Except.ok _ => false

/-- What `GRINModel.__init__` (lines 37-86) builds, at configuration level.
The learned arrays themselves (cell parameters, the `StaticGraphEmbedding`
table, the readout weights) are randomly initialised and enter the embedding
as explicit arguments of `GRINModel.forward` instead.
* `emb_shape`: `(n_nodes, embedding_size)` of the `StaticGraphEmbedding` when
  one is constructed (lines 70-74), `none` when `self.emb` is registered as
  `None`;
* `mlp_in_channels`: the input width `4 * hidden_size + input_size +
  embedding_size` of the readout `nn.Sequential` when `merge_mode == 'mlp'`. -/
structure GRINConfig where
  merge_mode : String
  emb_shape : Option (ℕ × ℕ)
  mlp_in_channels : Option ℕ
  ff_size : ℕ
  input_size : ℕ
  deriving DecidableEq, Repr

namespace GRINModel

/-- Embedding of `GRINModel.__init__` (lines 37-86).  Checks happen in source order:
* line 71: `assert n_nodes is not None` when `embedding_size is not None`
  (an `AssertionError`);
* line 78: for `merge_mode == 'mlp'`, `in_channels = 4 * hidden_size +
  input_size + embedding_size`; when `embedding_size` is `None` this is
  `int + None` and raises a `TypeError`;
* lines 83-86: `merge_mode` in `['mean', 'sum', 'min', 'max']` resolves
  `self.out = getattr(torch, merge_mode)`; any other string raises
  `ValueError("Merge option %s not allowed.")`. -/
def init (input_size hidden_size ff_size : ℕ)
    (embedding_size : Option ℕ) (n_nodes : Option ℕ) (merge_mode : String) :
    Except PyError GRINConfig :=
  match embedding_size, n_nodes with
  | some _, none => Except.error PyError.assertionError
  | some e, some m =>
    if merge_mode = "mlp" then
      Except.ok ⟨merge_mode, some (m, e),
        some (4 * hidden_size + input_size + e), ff_size, input_size⟩
    else if merge_mode ∈ (["mean", "sum", "min", "max"] : List String) then
      Except.ok ⟨merge_mode, some (m, e), none, ff_size, input_size⟩
    else Except.error PyError.valueError
  | none, _ =>
    if merge_mode = "mlp" then Except.error PyError.typeError
    else if merge_mode ∈ (["mean", "sum", "min", "max"] : List String) then
      Except.ok ⟨merge_mode, none, none, ff_size, input_size⟩
    else Except.error PyError.valueError

/-- Embedding of `GRINModel.forward` (lines 88-114), for a model whose learned pieces are
passed explicitly: `emb` is the `StaticGraphEmbedding` table when one was
configured (its row lookup `self.emb(expand=(b, s, -1, -1))` broadcasts each
node's row over batch and time), `out_net` is the readout `nn.Sequential`
applied along the feature axis (linear layers, `ReLU` and `nn.Dropout` all
act pointwise in the other axes; `nn.Dropout` is taken in its deterministic
regime, i.e. the identity), and `fwd_gril`, `bwd_gril` are the two cell
instances.

* forward pass on `(x, edges, mask, u)`;
* backward pass on the time-reversed inputs, with `out`, `pred`, `repr`
  re-reversed (lines 96-101);
* `merge_mode == 'mlp'`: `torch.cat([fwd_repr, bwd_repr, mask] (+ [emb]),
  dim=-1)` — `torch.cat` raises a `TypeError` when the list holds `None`,
  which is what placing an absent `mask` there does — then the readout;
* otherwise `torch.stack([fwd_out, bwd_out], dim=-1)` reduced by
  `self.out(imputation, dim=-1)` where `self.out` is the `torch` function
  named by `merge_mode`; for a string outside the five the model could not
  have been constructed (`self.out` would not exist), modelled as a
  `runtimeError`.  The `indices` halves of `torch.min` / `torch.max` are
  modelled with the first-occurrence tie-break. -/
noncomputable def forward {b t n f r e g : ℕ} (merge_mode : String)
    (emb : Option (Fin n → Fin e → ℝ)) (out_net : List ℝ → Fin f → ℝ)
    (fwd_gril bwd_gril : GRILCell b t n f r g) (edges : EdgeSpec)
    (x : T4 b t n f) (mask : Option (T4 b t n f)) (u : Option (T4 b t n g)) :
    Except PyError (GRINOutput b t n f) :=
  let fwd := fwd_gril.run x edges mask u
  let fwd_out := fwd.1
  let fwd_pred := fwd.2.1
  let fwd_repr := fwd.2.2
  let rev_x := reverse_tensor x
  let rev_mask := mask.map reverse_tensor
  let rev_u := u.map reverse_tensor
  let bwd := bwd_gril.run rev_x edges rev_mask rev_u
  let bwd_out := reverse_tensor bwd.1
  let bwd_pred := reverse_tensor bwd.2.1
  let bwd_repr := reverse_tensor bwd.2.2
  if merge_mode = "mlp" then
    match mask with
    | none => Except.error PyError.typeError
    | some m =>
      let inputsAt : Fin b → Fin t → Fin n → List ℝ := fun bi ti ni =>
        (List.ofFn (fun j => fwd_repr bi ti ni j) ++
          List.ofFn (fun j => bwd_repr bi ti ni j) ++
          List.ofFn (fun j => m bi ti ni j)) ++
          (match emb with
           | none => []
           | some tab => List.ofFn (fun j => tab ni j))
      let imputation : T4 b t n f :=
        fun bi ti ni fi => out_net (inputsAt bi ti ni) fi
      Except.ok ⟨MergeOut.tensor imputation, fwd_out, bwd_out, fwd_pred, bwd_pred⟩
  else
    let stacked : Fin b → Fin t → Fin n → Fin f → Fin 2 → ℝ :=
      fun bi ti ni fi j => if j = 0 then fwd_out bi ti ni fi else bwd_out bi ti ni fi
    if merge_mode = "mean" then
      Except.ok ⟨MergeOut.tensor
        (fun bi ti ni fi => (stacked bi ti ni fi 0 + stacked bi ti ni fi 1) / 2),
        fwd_out, bwd_out, fwd_pred, bwd_pred⟩
    else if merge_mode = "sum" then
      Except.ok ⟨MergeOut.tensor
        (fun bi ti ni fi => stacked bi ti ni fi 0 + stacked bi ti ni fi 1),
        fwd_out, bwd_out, fwd_pred, bwd_pred⟩
    else if merge_mode = "min" then
      Except.ok ⟨MergeOut.withIndices
        (fun bi ti ni fi => min (stacked bi ti ni fi 0) (stacked bi ti ni fi 1))
        (fun bi ti ni fi =>
          if stacked bi ti ni fi 1 < stacked bi ti ni fi 0 then 1 else 0),
        fwd_out, bwd_out, fwd_pred, bwd_pred⟩
    else if merge_mode = "max" then
      Except.ok ⟨MergeOut.withIndices
        (fun bi ti ni fi => max (stacked bi ti ni fi 0) (stacked bi ti ni fi 1))
        (fun bi ti ni fi =>
          if stacked bi ti ni fi 0 < stacked bi ti ni fi 1 then 1 else 0),
        fwd_out, bwd_out, fwd_pred, bwd_pred⟩
    else Except.error PyError.runtimeError

end GRINModel

/-- The forward-pass output sequence `fwd_out` of `GRINModel.forward`
(line 92), as a function of the cell and the call arguments. -/
def grin_fwd_out {b t n f r g : ℕ} (fwd_gril : GRILCell b t n f r g)
    (edges : EdgeSpec) (x : T4 b t n f) (mask : Option (T4 b t n f))
    (u : Option (T4 b t n g)) : T4 b t n f :=
  (fwd_gril.run x edges mask u).1

/-- The forward-pass prediction sequence `fwd_pred` of `GRINModel.forward`
(line 92). -/
def grin_fwd_pred {b t n f r g : ℕ} (fwd_gril : GRILCell b t n f r g)
    (edges : EdgeSpec) (x : T4 b t n f) (mask : Option (T4 b t n f))
    (u : Option (T4 b t n g)) : T4 b t n f :=
  (fwd_gril.run x edges mask u).2.1

/-- The backward-pass output sequence `bwd_out` of `GRINModel.forward`
(lines 96-101): the backward cell runs on the time-reversed inputs and its
output is reversed back to forward time. -/
def grin_bwd_out {b t n f r g : ℕ} (bwd_gril : GRILCell b t n f r g)
    (edges : EdgeSpec) (x : T4 b t n f) (mask : Option (T4 b t n f))
    (u : Option (T4 b t n g)) : T4 b t n f :=
  reverse_tensor
    (bwd_gril.run (reverse_tensor x) edges (mask.map reverse_tensor)
      (u.map reverse_tensor)).1

/-- The backward-pass prediction sequence `bwd_pred` of `GRINModel.forward`
(lines 96-101). -/
def grin_bwd_pred {b t n f r g : ℕ} (bwd_gril : GRILCell b t n f r g)
    (edges : EdgeSpec) (x : T4 b t n f) (mask : Option (T4 b t n f))
    (u : Option (T4 b t n g)) : T4 b t n f :=
  reverse_tensor
    (bwd_gril.run (reverse_tensor x) edges (mask.map reverse_tensor)
      (u.map reverse_tensor)).2.1

/-- Concrete attention input for the mutation counterexample: one element, one
head, one embedding channel, one value channel, one target slot, all array
entries `1`. -/
def st1 : SMHAState 1 1 1 1 1 :=
  ⟨fun _ _ _ => 1, fun _ _ _ => 1, fun _ _ _ => 1, fun _ => 0⟩

/-- A concrete cell instance on `1 × 1 × 1 × 1` tensors: output and
prediction echo the input, the representation is zero. -/
def cell1 : GRILCell 1 1 1 1 1 1 :=
  ⟨fun x _ _ _ => (x, x, fun _ _ _ _ => 0)⟩

/-- A concrete cell instance on `[2, 5, 3, 4]` tensors for the mean-merge
scenario: output and prediction echo the input, the representation is zero. -/
def cell2534 : GRILCell 2 5 3 4 1 1 :=
  ⟨fun x _ _ _ => (x, x, fun _ _ _ _ => 0)⟩

/-- The zero `1 × 1 × 1 × 1` tensor. -/
def x1 : T4 1 1 1 1 := fun _ _ _ _ => 0

/-- A non-constant `[2, 5, 3, 4]` input tensor for the mean-merge scenario. -/
def x2534 : T4 2 5 3 4 :=
  fun bi ti ni fi => ((bi.val + 2 * ti.val + 5 * ni.val + 11 * fi.val : ℕ) : ℝ)

/-- The all-ones `[2, 5, 3, 4]` mask of the mean-merge scenario. -/
def ones2534 : T4 2 5 3 4 := fun _ _ _ _ => 1

/-- An empty graph. -/
def edges1 : EdgeSpec := ([], none)

theorem epsilon_pos : 0 < epsilon := by norm_num [epsilon]

theorem mem_segment {S N : ℕ} {index : Fin S → Fin N} {g : Fin N} {j : Fin S}
    (hj : j ∈ segment index g) : index j = g := by
  simpa [segment] using hj

theorem segment_self_nonempty {S N : ℕ} (index : Fin S → Fin N) (i : Fin S) :
    (segment index (index i)).Nonempty :=
  ⟨i, by simp [segment]⟩

theorem sparse_softmax_def {S N : ℕ} (src : Fin S → ℝ) (index : Fin S → Fin N)
    (i : Fin S) :
    sparse_softmax src index i =
      Real.exp (src i - scatter_max src index (index i)) /
        (scatter_sum (fun j => Real.exp (src j - scatter_max src index (index j)))
            index (index i) + epsilon) := rfl

theorem scatter_max_gather {S N : ℕ} (src : Fin S → ℝ) (index : Fin S → Fin N)
    (i : Fin S) :
    scatter_max src index (index i) =
      (segment index (index i)).sup' (segment_self_nonempty index i) src := by
  unfold scatter_max
  rw [dif_pos (segment_self_nonempty index i)]

/-- Closed form of the scatter pipeline: each element is normalised inside its
own group, with the true per-group maximum subtracted. -/
theorem sparse_softmax_closed {S N : ℕ} (src : Fin S → ℝ) (index : Fin S → Fin N)
    (i : Fin S) :
    sparse_softmax src index i =
      Real.exp (src i -
          (segment index (index i)).sup' (segment_self_nonempty index i) src) /
        ((∑ j ∈ segment index (index i),
            Real.exp (src j -
              (segment index (index i)).sup' (segment_self_nonempty index i) src))
          + epsilon) := by
  rw [sparse_softmax_def, scatter_max_gather]
  congr 2
  unfold scatter_sum
  refine Finset.sum_congr rfl (fun j hj => ?_)
  show Real.exp (src j - scatter_max src index (index j)) = _
  rw [mem_segment hj, scatter_max_gather]

/-- C6: for every `src`, group index with in-range entries and group count
`N`, `sparse_softmax` returns, independently for each group `g` and each
element `i` of `g`, `exp(src_i - max_g) / (sum over j in g of
exp(src_j - max_g) + epsilon)`, where `max_g` is the maximum of `src` over
group `g`. -/
theorem sparse_softmax_matches_spec_formula :
    ∀ (S N : ℕ) (src : Fin S → ℝ) (index : Fin S → Fin N) (i : Fin S),
      sparse_softmax src index i = segmentSoftmaxSpec src index i := by
  intro S N src index i
  rw [sparse_softmax_closed]
  rfl

/-- C8: `sparse_softmax` is exactly invariant under adding an arbitrary
per-group constant `c g` to every input of group `g`. -/
theorem sparse_softmax_shift_invariant :
    ∀ (S N : ℕ) (src : Fin S → ℝ) (index : Fin S → Fin N) (c : Fin N → ℝ)
      (i : Fin S),
      sparse_softmax (fun j => src j + c (index j)) index i =
        sparse_softmax src index i := by
  intro S N src index c i
  rw [sparse_softmax_closed, sparse_softmax_closed]
  have hsup :
      (segment index (index i)).sup' (segment_self_nonempty index i)
          (fun j => src j + c (index j)) =
        (segment index (index i)).sup' (segment_self_nonempty index i) src
          + c (index i) := by
    apply le_antisymm
    · refine Finset.sup'_le _ _ (fun j hj => ?_)
      rw [mem_segment hj]
      exact add_le_add_right (Finset.le_sup' src hj) _
    · obtain ⟨j, hj, hjs⟩ :=
        Finset.exists_mem_eq_sup' (segment_self_nonempty index i) src
      rw [hjs]
      calc src j + c (index i)
          = src j + c (index j) := by rw [mem_segment hj]
        _ ≤ _ := Finset.le_sup' (fun k => src k + c (index k)) hj
  rw [hsup]
  congr 1
  · congr 1
    ring
  · congr 1
    refine Finset.sum_congr rfl (fun j hj => ?_)
    rw [mem_segment hj]
    congr 1
    ring

/-- Inside a fixed non-empty group `g`, every element of the group is
normalised by the same max and the same sum, so the group total is
`T / (T + ε)` with `T` the group's sum of exponentials. -/
theorem sparse_softmax_segment_sum {S N : ℕ} (src : Fin S → ℝ)
    (index : Fin S → Fin N) (g : Fin N) (h : (segment index g).Nonempty) :
    ∑ i ∈ segment index g, sparse_softmax src index i =
      (∑ i ∈ segment index g,
          Real.exp (src i - (segment index g).sup' h src)) /
        ((∑ i ∈ segment index g,
            Real.exp (src i - (segment index g).sup' h src)) + epsilon) := by
  rw [Finset.sum_div]
  refine Finset.sum_congr rfl (fun i hi => ?_)
  have hig : index i = g := mem_segment hi
  subst hig
  rw [sparse_softmax_closed]

/-- The group's sum of exponentials is at least `1`: the element attaining
the group max contributes `exp 0 = 1` and all terms are positive. -/
theorem one_le_segment_expsum {S N : ℕ} (src : Fin S → ℝ)
    (index : Fin S → Fin N) (g : Fin N) (h : (segment index g).Nonempty) :
    1 ≤ ∑ i ∈ segment index g,
        Real.exp (src i - (segment index g).sup' h src) := by
  obtain ⟨j, hj, hjs⟩ := Finset.exists_mem_eq_sup' h src
  have h1 : Real.exp (src j - (segment index g).sup' h src) ≤
      ∑ i ∈ segment index g,
        Real.exp (src i - (segment index g).sup' h src) :=
    Finset.single_le_sum
      (fun k _ => (Real.exp_pos (src k - (segment index g).sup' h src)).le) hj
  have heq : Real.exp (src j - (segment index g).sup' h src) = 1 := by
    rw [hjs, sub_self, Real.exp_zero]
  rw [heq] at h1
  exact h1

/-- Per-group sums of the segment softmax lie within `ε` of `1`. -/
theorem sparse_softmax_sum_near_one {S N : ℕ} (src : Fin S → ℝ)
    (index : Fin S → Fin N) (g : Fin N) (h : (segment index g).Nonempty) :
    |(∑ i ∈ segment index g, sparse_softmax src index i) - 1| ≤ epsilon := by
  rw [sparse_softmax_segment_sum src index g h]
  set T := ∑ i ∈ segment index g,
      Real.exp (src i - (segment index g).sup' h src) with hT
  have hT1 : 1 ≤ T := one_le_segment_expsum src index g h
  have hden : 0 < T + epsilon := by
    have := epsilon_pos
    linarith
  have hval : T / (T + epsilon) - 1 = -(epsilon / (T + epsilon)) := by
    field_simp
  rw [hval, abs_neg,
    abs_of_nonneg (div_nonneg epsilon_pos.le hden.le)]
  exact div_le_self epsilon_pos.le (by linarith [epsilon_pos])

/-- The attention weights of a dropout-free call are exactly the segment
softmax of the scaled scores, head by head. -/
theorem smha_alpha_no_dropout {S H E O N : ℕ} (st : SMHAState S H E O N)
    (dm : Fin S → Fin H → Bool) :
    (sparse_multi_head_attention st 0 dm).alpha =
      fun i h => sparse_softmax
        (fun j => (∑ e : Fin E, st.q j h e * st.k j h e) / Real.sqrt (E : ℝ))
        st.index i := by
  simp [sparse_multi_head_attention, lt_self_iff_false]

/-- Any one-element call of the segment softmax evaluates to
`1 / (1 + ε)`, whatever the score. -/
theorem sparse_softmax_single (src : Fin 1 → ℝ) (index : Fin 1 → Fin 1) :
    sparse_softmax src index 0 = 1 / (1 + epsilon) := by
  have hseg : segment index (index 0) = {(0 : Fin 1)} := by
    ext j
    simp [segment, Subsingleton.elim j (0 : Fin 1)]
  rw [sparse_softmax_def]
  unfold scatter_sum
  rw [hseg, Finset.sum_singleton]
  unfold scatter_max
  rw [hseg]
  rw [dif_pos (Finset.singleton_nonempty (0 : Fin 1))]
  rw [Finset.sup'_singleton]
  simp

/-- C7 (amended): per-group sums of `sparse_softmax` outputs are within
`ε` of `1` for every non-empty group; likewise for the attention weights
returned by `sparse_multi_head_attention`, per non-empty group and head,
whenever the call runs without dropout (`dropout_p = 0`). -/
theorem softmax_and_attention_sums_near_one :
    (∀ (S N : ℕ) (src : Fin S → ℝ) (index : Fin S → Fin N) (g : Fin N),
        (segment index g).Nonempty →
        |(∑ i ∈ segment index g, sparse_softmax src index i) - 1| ≤ epsilon) ∧
    (∀ (S H E O N : ℕ) (st : SMHAState S H E O N) (dm : Fin S → Fin H → Bool)
        (g : Fin N) (h : Fin H),
        (segment st.index g).Nonempty →
        |(∑ i ∈ segment st.index g,
            (sparse_multi_head_attention st 0 dm).alpha i h) - 1| ≤ epsilon) := by
  constructor
  · exact fun S N src index g h => sparse_softmax_sum_near_one src index g h
  · intro S H E O N st dm g h hne
    rw [smha_alpha_no_dropout]
    exact sparse_softmax_sum_near_one _ st.index g hne

/-- C7 witness: a concrete non-empty group whose softmax total, and a
concrete dropout-free attention call whose weight total, are within `ε`
of `1`. -/
theorem softmax_and_attention_sums_near_one_witness :
    ((segment (fun _ : Fin 1 => (0 : Fin 1)) (0 : Fin 1)).Nonempty ∧
      |(∑ i ∈ segment (fun _ : Fin 1 => (0 : Fin 1)) (0 : Fin 1),
          sparse_softmax (fun _ : Fin 1 => (0 : ℝ)) (fun _ => (0 : Fin 1)) i) - 1|
        ≤ epsilon) ∧
    ((segment st1.index (0 : Fin 1)).Nonempty ∧
      |(∑ i ∈ segment st1.index (0 : Fin 1),
          (sparse_multi_head_attention st1 0 (fun _ _ => false)).alpha i 0) - 1|
        ≤ epsilon) :=
  ⟨⟨by decide,
      softmax_and_attention_sums_near_one.1 1 1 (fun _ => 0) (fun _ => 0) 0
        (by decide)⟩,
    ⟨by decide,
      softmax_and_attention_sums_near_one.2 1 1 1 1 1 st1 (fun _ _ => false) 0 0
        (by decide)⟩⟩

/-- C7 counterexample: with dropout enabled (`dropout_p = 1/2`, a Bernoulli
sample that drops the only element — the source applies
`F.dropout` with its default `training=True`), the returned attention
weights of the single non-empty group sum to `0`, not to `1 ± ε`. -/
theorem smha_dropout_breaks_weight_sums :
    ¬ |(∑ i ∈ segment st1.index (0 : Fin 1),
          (sparse_multi_head_attention st1 (1 / 2) (fun _ _ => true)).alpha i 0)
          - 1| ≤ epsilon := by
  have hp : (0 : ℝ) < 1 / 2 := by norm_num
  have halpha :
      (sparse_multi_head_attention st1 (1 / 2) (fun _ _ => true)).alpha =
        fun i h => (0 : ℝ) := by
    simp [sparse_multi_head_attention, hp]
  rw [halpha]
  rw [Finset.sum_const]
  norm_num [epsilon]

/-- C2 (amended): `sparse_multi_head_attention` leaves `q`, `k` and `index`
unchanged, but mutates `v` in place: after the call, `v` holds its old
values multiplied by the per-element, per-head attention weights
(`v *= alpha.view(-1, H, 1)`); `out` and the weights are fresh arrays. -/
theorem smha_frame_profile :
    ∀ (S H E O N : ℕ) (st : SMHAState S H E O N) (p : ℝ)
      (dm : Fin S → Fin H → Bool),
      (sparse_multi_head_attention st p dm).post.q = st.q ∧
      (sparse_multi_head_attention st p dm).post.k = st.k ∧
      (sparse_multi_head_attention st p dm).post.index = st.index ∧
      (sparse_multi_head_attention st p dm).post.v =
        fun i h o => st.v i h o * (sparse_multi_head_attention st p dm).alpha i h :=
  fun _ _ _ _ _ _ _ _ => ⟨rfl, rfl, rfl, rfl⟩

/-- C2 counterexample: on a concrete all-ones input, the array passed as `v`
does not hold its original values after the call — its single entry has been
scaled from `1` to `1 / (1 + ε)`. -/
theorem smha_mutates_v :
    (sparse_multi_head_attention st1 0 (fun _ _ => false)).post.v ≠ st1.v := by
  intro hEq
  have halpha :
      (sparse_multi_head_attention st1 0 (fun _ _ => false)).alpha 0 0 =
        1 / (1 + epsilon) := by
    rw [smha_alpha_no_dropout]
    exact sparse_softmax_single _ _
  have h0 := congrFun (congrFun (congrFun hEq 0) 0) 0
  have hv :
      (sparse_multi_head_attention st1 0 (fun _ _ => false)).post.v 0 0 0 =
        st1.v 0 0 0 * (sparse_multi_head_attention st1 0 (fun _ _ => false)).alpha 0 0 :=
    rfl
  rw [hv, halpha] at h0
  have hval : st1.v 0 0 0 = 1 := rfl
  rw [hval, one_mul] at h0
  have : (1 : ℝ) / (1 + epsilon) < 1 := by
    rw [div_lt_one (by linarith [epsilon_pos] : (0 : ℝ) < 1 + epsilon)]
    linarith [epsilon_pos]
  rw [h0] at this
  exact lt_irrefl 1 this

/-- C3 counterexample: a length-3 (odd) axis is not rejected.
`torch.tensor_split` cuts it into sections of sizes 2 and 1 and the
element-wise product silently broadcasts the singleton half, returning a
length-2 result instead of raising. -/
theorem gated_tanh_odd_three_no_error :
    ([(0 : ℝ), 0, 0].length % 2 = 1) ∧
      gated_tanh [(0 : ℝ), 0, 0] = Except.ok [0, 0] := by
  refine ⟨by decide, ?_⟩
  show broadcast_mul_1d ([(0 : ℝ), 0].map Real.tanh) ([(0 : ℝ)].map sigmoid)
    = Except.ok [0, 0]
  simp [broadcast_mul_1d, Real.tanh_zero]

/-- C3 (amended): for an even size `2m` along the split axis, `gated_tanh`
returns `tanh(a) ⊙ sigmoid(b)` with `a` the first and `b` the second half,
and the output size along that axis is `m`; for an odd size the two sections
have sizes `⌈L/2⌉` and `⌊L/2⌋` and the call raises only when the element-wise
product cannot broadcast them, i.e. for odd sizes `≥ 5` (sizes 1 and 3
return silently broadcast results). -/
theorem gated_tanh_split_behaviour :
    (∀ l : List ℝ, l.length % 2 = 0 →
        gated_tanh l = Except.ok (List.zipWith (fun a b => Real.tanh a * sigmoid b)
          (l.take (l.length / 2)) (l.drop (l.length / 2))) ∧
        (List.zipWith (fun a b => Real.tanh a * sigmoid b)
          (l.take (l.length / 2)) (l.drop (l.length / 2))).length = l.length / 2) ∧
    (∀ l : List ℝ, l.length % 2 = 1 → 5 ≤ l.length →
        gated_tanh l =
          Except.error "The size of tensor a must match the size of tensor b") := by
  constructor
  · intro l heven
    have hhalf : (l.length + 1) / 2 = l.length / 2 := by omega
    have htake : (l.take (l.length / 2)).length = l.length / 2 := by
      rw [List.length_take]
      omega
    have hdrop : (l.drop (l.length / 2)).length = l.length / 2 := by
      rw [List.length_drop]
      omega
    constructor
    · unfold gated_tanh broadcast_mul_1d
      rw [hhalf]
      rw [if_pos (by rw [List.length_map, List.length_map, htake, hdrop])]
      rw [List.zipWith_map]
    · rw [List.length_zipWith, htake, hdrop]
      omega
  · intro l hodd h5
    unfold gated_tanh broadcast_mul_1d
    have htake : ((l.take ((l.length + 1) / 2)).map Real.tanh).length
        = (l.length + 1) / 2 := by
      rw [List.length_map, List.length_take]
      omega
    have hdrop : ((l.drop ((l.length + 1) / 2)).map sigmoid).length
        = l.length - (l.length + 1) / 2 := by
      rw [List.length_map, List.length_drop]
    rw [if_neg (by rw [htake, hdrop]; omega),
      if_neg (by rw [htake]; omega),
      if_neg (by rw [hdrop]; omega)]

/-- C3 witness: the even branch at size 2 and the rejecting odd branch at
size 5, on concrete inputs. -/
theorem gated_tanh_split_behaviour_witness :
    (([(0 : ℝ), 0].length % 2 = 0) ∧
      gated_tanh [(0 : ℝ), 0] =
        Except.ok (List.zipWith (fun a b => Real.tanh a * sigmoid b)
          ([(0 : ℝ), 0].take ([(0 : ℝ), 0].length / 2))
          ([(0 : ℝ), 0].drop ([(0 : ℝ), 0].length / 2)))) ∧
    (([(0 : ℝ), 0, 0, 0, 0].length % 2 = 1 ∧ 5 ≤ [(0 : ℝ), 0, 0, 0, 0].length) ∧
      gated_tanh [(0 : ℝ), 0, 0, 0, 0] =
        Except.error "The size of tensor a must match the size of tensor b") :=
  ⟨⟨by decide, (gated_tanh_split_behaviour.1 [(0 : ℝ), 0] (by decide)).1⟩,
    ⟨⟨by decide, by decide⟩,
      gated_tanh_split_behaviour.2 [(0 : ℝ), 0, 0, 0, 0] (by decide) (by decide)⟩⟩

/-- C5 counterexample: `q` with embedding size 2 against `k` with embedding
size 1 is not rejected — the product broadcasts `k`'s singleton axis and a
score is computed. -/
theorem qk_score_broadcast_counterexample :
    ([(1 : ℝ), 1].length ≠ [(1 : ℝ)].length) ∧
      qk_score_slot [(1 : ℝ), 1] [(1 : ℝ)] = Except.ok (2 / Real.sqrt 2) := by
  refine ⟨by decide, ?_⟩
  show Except.map (fun l => l.sum / Real.sqrt (([(1 : ℝ), 1].length : ℕ) : ℝ))
      (broadcast_mul_1d [(1 : ℝ), 1] [(1 : ℝ)]) = Except.ok (2 / Real.sqrt 2)
  norm_num [broadcast_mul_1d, Except.map]

/-- C5 (amended): the score step of `sparse_multi_head_attention` rejects a
`q`/`k` embedding-size mismatch only when neither mismatched size is 1;
when one of them is 1 the product silently broadcasts it and a result is
computed. -/
theorem qk_score_mismatch_policy :
    (∀ q k : List ℝ, q.length ≠ k.length → q.length ≠ 1 → k.length ≠ 1 →
        qk_score_slot q k =
          Except.error "The size of tensor a must match the size of tensor b") ∧
    (∀ q k : List ℝ, q.length ≠ k.length → k.length = 1 →
        qk_score_slot q k =
          Except.ok ((q.map (fun x => x * k.headD 0)).sum /
            Real.sqrt (q.length : ℝ))) := by
  constructor
  · intro q k hne hq1 hk1
    unfold qk_score_slot broadcast_mul_1d
    rw [if_neg hne, if_neg hq1, if_neg hk1]
    rfl
  · intro q k hne hk1
    unfold qk_score_slot broadcast_mul_1d
    rw [if_neg hne, if_neg (by omega : ¬ q.length = 1), if_pos hk1]
    rfl

/-- C5 witness: a `3` vs `2` mismatch is rejected, while a `2` vs `1`
mismatch is silently broadcast. -/
theorem qk_score_mismatch_policy_witness :
    (([(0 : ℝ), 0, 0].length ≠ [(0 : ℝ), 0].length ∧
        [(0 : ℝ), 0, 0].length ≠ 1 ∧ [(0 : ℝ), 0].length ≠ 1) ∧
      qk_score_slot [(0 : ℝ), 0, 0] [(0 : ℝ), 0] =
        Except.error "The size of tensor a must match the size of tensor b") ∧
    (([(0 : ℝ), 0].length ≠ [(1 : ℝ)].length ∧ [(1 : ℝ)].length = 1) ∧
      qk_score_slot [(0 : ℝ), 0] [(1 : ℝ)] =
        Except.ok (([(0 : ℝ), 0].map (fun x => x * [(1 : ℝ)].headD 0)).sum /
          Real.sqrt (([(0 : ℝ), 0].length : ℕ) : ℝ))) :=
  ⟨⟨⟨by decide, by decide, by decide⟩,
      qk_score_mismatch_policy.1 [(0 : ℝ), 0, 0] [(0 : ℝ), 0]
        (by decide) (by decide) (by decide)⟩,
    ⟨⟨by decide, by decide⟩,
      qk_score_mismatch_policy.2 [(0 : ℝ), 0] [(1 : ℝ)] (by decide) (by decide)⟩⟩

/-- C1: construction with `merge_mode='mlp'` and no node embeddings does not
succeed: line 78 evaluates `4 * hidden_size + input_size + embedding_size`
with `embedding_size = None`, which raises a `TypeError` (`int + None`),
although the docstring declares `embedding_size` optional and `'mlp'` is the
default merge mode. -/
theorem grin_init_mlp_without_embedding_raises :
    GRINModel.init 4 64 128 none none "mlp" = Except.error PyError.typeError := rfl

/-- C9: construction rejects invalid configurations eagerly — any
`merge_mode` outside the five allowed strings raises (a `ValueError`, or an
`AssertionError` first if the embedding invariant is also violated), and any
configuration with an embedding size but no `n_nodes` raises
(`assert n_nodes is not None`). -/
theorem grin_init_rejects_invalid_config :
    (∀ (i h ff : ℕ) (es nn : Option ℕ) (m : String),
        m ∉ (["mlp", "mean", "sum", "min", "max"] : List String) →
        exceptIsError (GRINModel.init i h ff es nn m) = true) ∧
    (∀ (i h ff e : ℕ) (m : String),
        exceptIsError (GRINModel.init i h ff (some e) none m) = true) := by
  constructor
  · intro i h ff es nn m hm
    have h1 : ¬ m = "mlp" := fun hh => hm (by rw [hh]; simp)
    have h2 : ¬ m ∈ (["mean", "sum", "min", "max"] : List String) := by
      intro hh
      apply hm
      simp only [List.mem_cons] at hh ⊢
      tauto
    cases es <;> cases nn <;>
      simp [GRINModel.init, exceptIsError, h1, h2]
  · intro i h ff e m
    simp [GRINModel.init, exceptIsError]

/-- C9 witness: the unknown merge string `"concat"` is rejected, and so is
`embedding_size = 8` with `n_nodes = None`. -/
theorem grin_init_rejects_invalid_config_witness :
    (("concat" ∉ (["mlp", "mean", "sum", "min", "max"] : List String)) ∧
      exceptIsError (GRINModel.init 4 64 128 none none "concat") = true) ∧
    exceptIsError (GRINModel.init 4 64 128 (some 8) none "mlp") = true :=
  ⟨⟨by decide,
      grin_init_rejects_invalid_config.1 4 64 128 none none "concat" (by decide)⟩,
    grin_init_rejects_invalid_config.2 4 64 128 8 "mlp"⟩

/-- C10: with `merge_mode='mlp'`, a forward call without a mask fails:
`None` is placed into the list handed to `torch.cat`, which raises a
`TypeError`, even though `mask` is declared optional. -/
theorem grin_forward_mlp_requires_mask :
    ∀ (b t n f r e g : ℕ) (emb : Option (Fin n → Fin e → ℝ))
      (out_net : List ℝ → Fin f → ℝ) (fc bc : GRILCell b t n f r g)
      (edges : EdgeSpec) (x : T4 b t n f) (u : Option (T4 b t n g)),
      GRINModel.forward "mlp" emb out_net fc bc edges x none u =
        Except.error PyError.typeError :=
  fun _ _ _ _ _ _ _ _ _ _ _ _ _ _ => rfl

/-- C4 (amended): for `merge_mode` `'mean'` or `'sum'`, the forward call
returns as imputation a single tensor obtained by stacking `fwd_out` and
`bwd_out` along a new trailing axis and reducing with the named operator —
in particular the `'mean'` imputation is exactly the element-wise mean of
`fwd_out` and `bwd_out` and keeps the input shape; for `'min'` and `'max'`,
`torch.min` / `torch.max` with a `dim` argument return the named tuple
`(values, indices)`, whose `values` half is the element-wise reduction, not
a single tensor. -/
theorem grin_forward_reduce_merge_modes :
    (∀ (b t n f r e g : ℕ) (emb : Option (Fin n → Fin e → ℝ))
        (out_net : List ℝ → Fin f → ℝ) (fc bc : GRILCell b t n f r g)
        (edges : EdgeSpec) (x : T4 b t n f) (mask : Option (T4 b t n f))
        (u : Option (T4 b t n g)),
        GRINModel.forward "mean" emb out_net fc bc edges x mask u =
          Except.ok ⟨MergeOut.tensor (fun bi ti ni fi =>
              (grin_fwd_out fc edges x mask u bi ti ni fi +
                grin_bwd_out bc edges x mask u bi ti ni fi) / 2),
            grin_fwd_out fc edges x mask u, grin_bwd_out bc edges x mask u,
            grin_fwd_pred fc edges x mask u, grin_bwd_pred bc edges x mask u⟩) ∧
    (∀ (b t n f r e g : ℕ) (emb : Option (Fin n → Fin e → ℝ))
        (out_net : List ℝ → Fin f → ℝ) (fc bc : GRILCell b t n f r g)
        (edges : EdgeSpec) (x : T4 b t n f) (mask : Option (T4 b t n f))
        (u : Option (T4 b t n g)),
        GRINModel.forward "sum" emb out_net fc bc edges x mask u =
          Except.ok ⟨MergeOut.tensor (fun bi ti ni fi =>
              grin_fwd_out fc edges x mask u bi ti ni fi +
                grin_bwd_out bc edges x mask u bi ti ni fi),
            grin_fwd_out fc edges x mask u, grin_bwd_out bc edges x mask u,
            grin_fwd_pred fc edges x mask u, grin_bwd_pred bc edges x mask u⟩) ∧
    (∀ (b t n f r e g : ℕ) (emb : Option (Fin n → Fin e → ℝ))
        (out_net : List ℝ → Fin f → ℝ) (fc bc : GRILCell b t n f r g)
        (edges : EdgeSpec) (x : T4 b t n f) (mask : Option (T4 b t n f))
        (u : Option (T4 b t n g)),
        GRINModel.forward "min" emb out_net fc bc edges x mask u =
          Except.ok ⟨MergeOut.withIndices
            (fun bi ti ni fi =>
              min (grin_fwd_out fc edges x mask u bi ti ni fi)
                (grin_bwd_out bc edges x mask u bi ti ni fi))
            (fun bi ti ni fi =>
              if grin_bwd_out bc edges x mask u bi ti ni fi <
                  grin_fwd_out fc edges x mask u bi ti ni fi then 1 else 0),
            grin_fwd_out fc edges x mask u, grin_bwd_out bc edges x mask u,
            grin_fwd_pred fc edges x mask u, grin_bwd_pred bc edges x mask u⟩) ∧
    (∀ (b t n f r e g : ℕ) (emb : Option (Fin n → Fin e → ℝ))
        (out_net : List ℝ → Fin f → ℝ) (fc bc : GRILCell b t n f r g)
        (edges : EdgeSpec) (x : T4 b t n f) (mask : Option (T4 b t n f))
        (u : Option (T4 b t n g)),
        GRINModel.forward "max" emb out_net fc bc edges x mask u =
          Except.ok ⟨MergeOut.withIndices
            (fun bi ti ni fi =>
              max (grin_fwd_out fc edges x mask u bi ti ni fi)
                (grin_bwd_out bc edges x mask u bi ti ni fi))
            (fun bi ti ni fi =>
              if grin_fwd_out fc edges x mask u bi ti ni fi <
                  grin_bwd_out bc edges x mask u bi ti ni fi then 1 else 0),
            grin_fwd_out fc edges x mask u, grin_bwd_out bc edges x mask u,
            grin_fwd_pred fc edges x mask u, grin_bwd_pred bc edges x mask u⟩) :=
  ⟨fun _ _ _ _ _ _ _ _ _ _ _ _ _ _ _ => rfl,
    fun _ _ _ _ _ _ _ _ _ _ _ _ _ _ _ => rfl,
    fun _ _ _ _ _ _ _ _ _ _ _ _ _ _ _ => rfl,
    fun _ _ _ _ _ _ _ _ _ _ _ _ _ _ _ => rfl⟩

/-- C4 counterexample: a concrete `merge_mode='min'` forward call (shape
`1 × 1 × 1 × 1`, mask present) does not return a single tensor as
imputation — `torch.min(stacked, dim=-1)` hands back a `(values, indices)`
tuple. -/
theorem grin_forward_min_returns_tuple :
    imputationIsTensor (GRINModel.forward "min"
        (none : Option (Fin 1 → Fin 1 → ℝ)) (fun _ _ => 0) cell1 cell1 edges1
        x1 (some x1) none) = false := rfl

/-- Concrete mean-merge scenario of the spec: input of shape `[2, 5, 3, 4]`,
mask all ones, `merge_mode='mean'` — the imputation is a single tensor of
the same shape (by typing) holding exactly the element-wise mean of
`fwd_out` and `bwd_out`. -/
theorem grin_forward_mean_scenario_2534 :
    GRINModel.forward "mean" (none : Option (Fin 3 → Fin 1 → ℝ)) (fun _ _ => 0)
        cell2534 cell2534 edges1 x2534 (some ones2534) none =
      Except.ok ⟨MergeOut.tensor (fun bi ti ni fi =>
          (grin_fwd_out cell2534 edges1 x2534 (some ones2534) none bi ti ni fi +
            grin_bwd_out cell2534 edges1 x2534 (some ones2534) none bi ti ni fi)
            / 2),
        grin_fwd_out cell2534 edges1 x2534 (some ones2534) none,
        grin_bwd_out cell2534 edges1 x2534 (some ones2534) none,
        grin_fwd_pred cell2534 edges1 x2534 (some ones2534) none,
        grin_bwd_pred cell2534 edges1 x2534 (some ones2534) none⟩ := rfl

end tsl
